import Mathlib

/-!
# Verification of the xpay n8n nodes (webhook trigger and run poller)

Shallow embedding of the protocol logic of `XPayTrigger.node.ts`
(session registry hooks and the POST webhook verifier) and
`XPayRun.node.ts` (the async run submission and polling loop),
together with theorems settling the specification claims.

JavaScript values appearing in webhook bodies are modelled by `JVal`
(the integer-numbered fragment of JSON); `Option` models
absent (`undefined`) object properties and headers.
-/

/-- JSON values as parsed by the platform's body parser
(integer-numbered fragment; JS numbers that are not integers do not
occur in any claim). -/
inductive JVal where
  | str (s : String)
  | num (n : Int)
  | bool (b : Bool)
  | null
  | arr (elems : List JVal)
  | obj (fields : List (String × JVal))
deriving Repr

/-- JavaScript truthiness of a `JVal` (used by `body._getInfo`-style tests). -/
def JVal.truthy : JVal → Bool
  | .str s => !(s == "")
  | .num n => !(n == 0)
  | .bool b => b
  | .null => false
  | .arr _ => true
  | .obj _ => true

/-- Truthiness of a possibly-absent property (`undefined` is falsy). -/
def truthyOpt : Option JVal → Bool
  | none => false
  | some v => v.truthy

/-- Property lookup on a parsed JS object. -/
def jlookup (fields : List (String × JVal)) (k : String) : Option JVal :=
  (fields.find? (fun p => p.1 == k)).map (fun p => p.2)

/-- Escape of one character inside a JSON string literal, as
produced by `JSON.stringify`. -/
def jsonEscapeChar (c : Char) : String :=
  if c = '"' then "\\\""
  else if c = '\\' then "\\\\"
  else if c = '\n' then "\\n"
  else if c = '\r' then "\\r"
  else if c = '\t' then "\\t"
  else if c = '\x08' then "\\b"
  else if c = '\x0c' then "\\f"
  else String.singleton c

/-- Escape of a JSON string body, as produced by `JSON.stringify`. -/
def jsonEscape (s : String) : String :=
  String.join (s.toList.map jsonEscapeChar)

mutual

/-- `JSON.stringify` on the modelled value fragment: no added
whitespace, fields in object order, strings escaped. -/
def JVal.stringify : JVal → String
  | .str s => "\"" ++ jsonEscape s ++ "\""
  | .num n => toString n
  | .bool b => if b then "true" else "false"
  | .null => "null"
  | .arr es => "[" ++ JVal.stringifyElems es ++ "]"
  | .obj fs => "\x7b" ++ JVal.stringifyFields fs ++ "\x7d"

/-- Comma-joined serialization of array elements. -/
def JVal.stringifyElems : List JVal → String
  | [] => ""
  | [v] => JVal.stringify v
  | v :: w :: rest => JVal.stringify v ++ "," ++ JVal.stringifyElems (w :: rest)

/-- Comma-joined serialization of object members. -/
def JVal.stringifyFields : List (String × JVal) → String
  | [] => ""
  | [(k, v)] => "\"" ++ jsonEscape k ++ "\":" ++ JVal.stringify v
  | (k, v) :: w :: rest =>
      "\"" ++ jsonEscape k ++ "\":" ++ JVal.stringify v ++ "," ++ JVal.stringifyFields (w :: rest)

end

example : JVal.stringify (JVal.obj [("a", JVal.num 1)]) = "\x7b\"a\":1\x7d" := by rfl

/-- The opening curly brace character. -/
def lbrace : Char := Char.ofNat 123

/-- The closing curly brace character. -/
def rbrace : Char := Char.ofNat 125

/-- JSON whitespace skipping. -/
def skipWs (cs : List Char) : List Char :=
  cs.dropWhile (fun c => c == ' ' || c == '\n' || c == '\t' || c == '\r')

/-- Split off the leading run of decimal digits. -/
def takeDigits (cs : List Char) : List Char × List Char :=
  (cs.takeWhile Char.isDigit, cs.dropWhile Char.isDigit)

/-- Value of a digit run. -/
def digitsToNat (ds : List Char) : Nat :=
  ds.foldl (fun acc c => acc * 10 + (c.toNat - 48)) 0

/-- Parse the body of a JSON string literal (after the opening quote),
returning the decoded string and the input after the closing quote. -/
def parseStringBody : List Char → Option (String × List Char)
  | [] => none
  | c :: rest =>
    if c == '"' then some ("", rest)
    else if c == '\\' then
      match rest with
      | [] => none
      | e :: rest2 =>
        let dec : Option Char :=
          if e == '"' then some '"'
          else if e == '\\' then some '\\'
          else if e == '/' then some '/'
          else if e == 'n' then some '\n'
          else if e == 't' then some '\t'
          else if e == 'r' then some '\r'
          else if e == 'b' then some '\x08'
          else if e == 'f' then some '\x0c'
          else none
        match dec with
        | none => none
        | some d =>
          match parseStringBody rest2 with
          | some (s, rest3) => some (String.singleton d ++ s, rest3)
          | none => none
    else
      match parseStringBody rest with
      | some (s, rest2) => some (String.singleton c ++ s, rest2)
      | none => none

mutual

/-- Modelled from the platform behaviour the source relies on: recursive-descent
parser for the `JVal` fragment of JSON, as `JSON.parse` (the host's request
body parser) produces the parsed body from raw request bytes. `fuel` bounds
recursion depth. -/
def parseVal : Nat → List Char → Option (JVal × List Char)
  | 0, _ => none
  | Nat.succ fuel, cs =>
    match skipWs cs with
    | [] => none
    | c :: rest =>
      if c == lbrace then
        match skipWs rest with
        | [] => none
        | d :: rest2 =>
          if d == rbrace then some (JVal.obj [], rest2)
          else
            match parseMembers fuel (d :: rest2) with
            | some (fs, rest3) => some (JVal.obj fs, rest3)
            | none => none
      else if c == '[' then
        match skipWs rest with
        | [] => none
        | d :: rest2 =>
          if d == ']' then some (JVal.arr [], rest2)
          else
            match parseElems fuel (d :: rest2) with
            | some (es, rest3) => some (JVal.arr es, rest3)
            | none => none
      else if c == '"' then
        match parseStringBody rest with
        | some (s, rest2) => some (JVal.str s, rest2)
        | none => none
      else if c == 't' then
        match rest with
        | 'r' :: 'u' :: 'e' :: rest2 => some (JVal.bool true, rest2)
        | _ => none
      else if c == 'f' then
        match rest with
        | 'a' :: 'l' :: 's' :: 'e' :: rest2 => some (JVal.bool false, rest2)
        | _ => none
      else if c == 'n' then
        match rest with
        | 'u' :: 'l' :: 'l' :: rest2 => some (JVal.null, rest2)
        | _ => none
      else if c == '-' then
        match takeDigits rest with
        | ([], _) => none
        | (ds, rest2) => some (JVal.num (-(digitsToNat ds : Int)), rest2)
      else if c.isDigit then
        match takeDigits (c :: rest) with
        | (ds, rest2) => some (JVal.num (digitsToNat ds), rest2)
      else none

/-- Parse `"key": value` members of a JSON object up to and including the
closing brace. -/
def parseMembers : Nat → List Char → Option (List (String × JVal) × List Char)
  | 0, _ => none
  | Nat.succ fuel, cs =>
    match skipWs cs with
    | '"' :: rest =>
      match parseStringBody rest with
      | none => none
      | some (k, rest2) =>
        match skipWs rest2 with
        | ':' :: rest3 =>
          match parseVal fuel rest3 with
          | none => none
          | some (v, rest4) =>
            match skipWs rest4 with
            | [] => none
            | d :: rest5 =>
              if d == ',' then
                match parseMembers fuel rest5 with
                | some (fs, rest6) => some ((k, v) :: fs, rest6)
                | none => none
              else if d == rbrace then some ([(k, v)], rest5)
              else none
        | _ => none
    | _ => none

/-- Parse comma-separated elements of a JSON array up to and including the
closing bracket. -/
def parseElems : Nat → List Char → Option (List JVal × List Char)
  | 0, _ => none
  | Nat.succ fuel, cs =>
    match parseVal fuel cs with
    | none => none
    | some (v, rest) =>
      match skipWs rest with
      | ',' :: rest2 =>
        match parseElems fuel rest2 with
        | some (es, rest3) => some (v :: es, rest3)
        | none => none
      | ']' :: rest2 => some ([v], rest2)
      | _ => none

end

/-- Modelled from the platform behaviour the source relies on: `JSON.parse` of a
complete request body (only trailing whitespace may remain). -/
def parseJson (raw : String) : Option JVal :=
  match parseVal (raw.length + 1) raw.toList with
  | some (v, rest) => if skipWs rest == [] then some v else none
  | none => none

example : parseJson "\x7b\"a\": 1\x7d" = some (JVal.obj [("a", JVal.num 1)]) := by rfl
example : parseJson " \x7b \"a\" : [1, true, \"x\"] \x7d " =
    some (JVal.obj [("a", JVal.arr [JVal.num 1, JVal.bool true, JVal.str "x"])]) := by rfl

/-- The fields of the trigger node's workflow static data written and read by
`XPayTrigger.node.ts` (`getWorkflowStaticData('node')`); `none` models an
absent (`undefined` / `delete`d) property. -/
structure StaticData where
  checkoutId : Option String
  checkoutUrl : Option String
  webhookSecret : Option String
deriving DecidableEq, Repr

/-- `webhookMethods.default.checkExists`: true iff `webhookData.checkoutId`
is defined. No network call. -/
def checkExists (st : StaticData) : Bool :=
  st.checkoutId.isSome

/-- The remote registration response shape
(`\x7b checkout_id, checkout_url, webhook_secret \x7d`). -/
structure CreateResponse where
  checkout_id : String
  checkout_url : String
  webhook_secret : String
deriving DecidableEq, Repr

/-- The response-handling part of `webhookMethods.default.create`
(lines 276-314): on a successful remote registration, store the returned
checkout id, checkout url and webhook secret; if the remote call fails
(`catch`, any network error or non-2xx), store the sentinel
`local-test` / `test-secret` session instead. Both branches return `true`.
The remote outcome is the `remote` argument (`Except.error` = thrown
request error carrying its message). -/
def createHook (st : StaticData) (remote : Except String CreateResponse) :
    Bool × StaticData :=
  match remote with
  | Except.ok r =>
      (true, StaticData.mk (some r.checkout_id) (some r.checkout_url) (some r.webhook_secret))
  | Except.error _ =>
      (true, StaticData.mk (some "local-test") st.checkoutUrl (some "test-secret"))

/-- `webhookMethods.default.delete` (lines 317-349): if the stored
`checkoutId` is absent or falsy (`""`) or equals `local-test`, return `true`
immediately; otherwise issue the remote `DELETE` (whose outcome `remoteOk`
is swallowed by the `catch`), then delete the three static-data fields and
return `true`. Result: (returned flag, resulting static data, number of
remote DELETE requests issued). -/
def deleteHook (st : StaticData) (remoteOk : Bool) : Bool × StaticData × Nat :=
  match st.checkoutId with
  | none => (true, st, 0)
  | some cid =>
    if cid = "" ∨ cid = "local-test" then (true, st, 0)
    else
      let _ := remoteOk
      (true, StaticData.mk none none none, 1)

/-- Modelled from the spec: the host's activation protocol consults
`exists` before `create` ("`create` called twice without an intervening
`delete` must not issue a second remote registration (idempotent via
`exists` check)"). Returns the resulting state and the number of remote
registration requests issued by this activation step. -/
def activationStep (st : StaticData) (remote : Except String CreateResponse) :
    StaticData × Nat :=
  if checkExists st then (st, 0)
  else ((createHook st remote).2, 1)

/-- Remove the first occurrence of `pat` from a character list
(JavaScript `String.prototype.replace` with a string pattern and empty
replacement). -/
def removeFirst (pat : List Char) : List Char → List Char
  | [] => []
  | c :: cs =>
    if pat.isPrefixOf (c :: cs) then (c :: cs).drop pat.length
    else c :: removeFirst pat cs

/-- JavaScript `s.replace(pat, '')`: drop the first occurrence of `pat`. -/
def replaceFirst (s pat : String) : String :=
  String.mk (removeFirst pat.toList s.toList)

/-- JavaScript `parseInt(s, 10)`: skip leading whitespace, optional sign,
then the leading digit run; `none` models `NaN`. -/
def jsParseInt (s : String) : Option Int :=
  let cs := s.toList.dropWhile (fun c => c == ' ' || c == '\t' || c == '\n' || c == '\r')
  match cs with
  | '-' :: rest =>
      match takeDigits rest with
      | ([], _) => none
      | (ds, _) => some (-(digitsToNat ds : Int))
  | '+' :: rest =>
      match takeDigits rest with
      | ([], _) => none
      | (ds, _) => some (digitsToNat ds)
  | _ =>
      match takeDigits cs with
      | ([], _) => none
      | (ds, _) => some (digitsToNat ds)

/-- A string-typed header value is falsy in JS iff it is absent or empty. -/
def jsFalsy (h : Option String) : Prop :=
  h = none ∨ h = some ""

instance (h : Option String) : Decidable (jsFalsy h) := by
  unfold jsFalsy; infer_instance

/-- The HMAC signing input computed by the webhook handler (line 455):
the timestamp header, `"."`, and `JSON.stringify` of the **parsed** body. -/
def webhookSigningInput (timestamp : String) (body : List (String × JVal)) : String :=
  timestamp ++ "." ++ JVal.stringify (JVal.obj body)

/-- Outcome of the POST webhook handler: `info` is the 200 informational
response (lines 421-436) exposing the stored checkout id and form url and
emitting no workflow data; `unauthorized` is a 401 `\x7b error \x7d` response
emitting no workflow data; `accepted` is the 200 `\x7b success: true \x7d`
response together with one emitted workflow item (lines 489-515). -/
inductive WebhookOutcome where
  | info (checkout_id : Option String) (form_url : Option String)
  | unauthorized (error : String)
  | accepted
deriving DecidableEq, Repr

/-- HTTP status of a webhook outcome. -/
def WebhookOutcome.statusOf : WebhookOutcome → Nat
  | .info _ _ => 200
  | .unauthorized _ => 401
  | .accepted => 200

/-- Whether the outcome emits workflow data to the workflow. -/
def WebhookOutcome.emitsData : WebhookOutcome → Bool
  | .accepted => true
  | _ => false

/-- The POST branch of `XPayTrigger.webhook` (lines 413-516).
Arguments: the stored static data, the node's `testMode` parameter,
the HMAC-SHA256 hex function (abstracted: `hmac secret message`),
the verifier's current unix time `now` (`Math.floor(Date.now()/1000)`),
the two signature headers, and the parsed request body.
Order of checks mirrors the source: info short-circuit for empty bodies or
truthy `_getInfo`; test-mode / fallback-secret bypass; missing-header,
signature, then timestamp-freshness checks. A non-numeric timestamp header
makes `Math.abs(now - NaN) > 300` false, so it passes the freshness check. -/
def webhookPost (st : StaticData) (testMode : Bool)
    (hmac : String → String → String) (now : Int)
    (sigHeader tsHeader : Option String)
    (body : List (String × JVal)) : WebhookOutcome :=
  if body.isEmpty = true ∨ truthyOpt (jlookup body "_getInfo") = true then
    WebhookOutcome.info st.checkoutId st.checkoutUrl
  else if testMode = true ∨ st.webhookSecret = some "test-secret" then
    WebhookOutcome.accepted
  else if jsFalsy sigHeader ∨ jsFalsy tsHeader then
    WebhookOutcome.unauthorized "Missing signature headers"
  else
    if replaceFirst (sigHeader.getD "") "sha256="
        = hmac (st.webhookSecret.getD "") (webhookSigningInput (tsHeader.getD "") body) then
      match jsParseInt (tsHeader.getD "") with
      | none => WebhookOutcome.accepted
      | some t =>
        if 300 < (now - t).natAbs then WebhookOutcome.unauthorized "Timestamp too old"
        else WebhookOutcome.accepted
    else WebhookOutcome.unauthorized "Invalid signature"

/-- `DEFAULTS.POLLING_INTERVAL_MS` from `shared/constants.ts`. -/
def POLLING_INTERVAL_MS : Nat := 2000

/-- The async submission response shape
(`\x7b accepted, runId, error, statusUrl, message \x7d`); `none` models
absent fields. -/
structure AsyncSubmitResponse where
  accepted : Bool
  runId : Option String
  error : Option String
  statusUrl : Option String
  message : Option String
deriving DecidableEq, Repr

/-- A status-query response (`GET /run/status/\x7brunId\x7d`): the fields
the `runAsync` polling loop reads. -/
structure RunStatusResult where
  status : String
  output : Option JVal
  error : Option String
  cost : Option Int
  duration : Option Int
deriving Repr

/-- JavaScript `a || b` on a possibly-absent string: `b` when `a` is
absent or empty. -/
def jsOrStr (a : Option String) (b : String) : String :=
  match a with
  | none => b
  | some s => if s = "" then b else s

/-- Terminal outcome of the polling loop, carrying the status-query
response that ended it. -/
inductive PollOutcome where
  | completed (r : RunStatusResult)
  | failed (r : RunStatusResult)
  | timedOut
deriving Repr

/-- The `while (true)` polling loop of the `runAsync` operation
(`XPayRun.node.ts` lines 361-404), with time made explicit: `elapsed` is
`Date.now() - startTime` at the top of the iteration (`startTime` is taken
right after the submission response, before the first sleep and the first
status query), `k` is the number of status queries issued so far.
Each iteration: if `elapsed > timeoutMs`, return the timeout result;
otherwise sleep `intervalMs`, issue status query `k` (taking `latency k`
ms), and stop on a success-terminal or failure-terminal status. `fuel`
bounds the number of iterations; `none` models a loop still running. -/
def pollLoop (statuses : Nat → RunStatusResult) (intervalMs timeoutMs : Nat)
    (latency : Nat → Nat) : Nat → Nat → Nat → Option (PollOutcome × Nat)
  | 0, _, _ => none
  | Nat.succ fuel, elapsed, k =>
    if timeoutMs < elapsed then some (PollOutcome.timedOut, k)
    else if (statuses k).status = "success" ∨ (statuses k).status = "completed" then
      some (PollOutcome.completed (statuses k), k + 1)
    else if (statuses k).status = "failed" ∨ (statuses k).status = "error" then
      some (PollOutcome.failed (statuses k), k + 1)
    else
      pollLoop statuses intervalMs timeoutMs latency fuel
        (elapsed + intervalMs + latency k) (k + 1)

/-- The polling loop started at the moment of submission:
elapsed time 0, no status queries yet. -/
def awaitCompletion (statuses : Nat → RunStatusResult) (intervalMs timeoutMs : Nat)
    (latency : Nat → Nat) (fuel : Nat) : Option (PollOutcome × Nat) :=
  pollLoop statuses intervalMs timeoutMs latency fuel 0 0

/-- Wall-clock time elapsed since submission after `n` complete loop
iterations (each: one sleep of `intervalMs` plus status query `j` taking
`latency j`). -/
def elapsedAfter (intervalMs : Nat) (latency : Nat → Nat) : Nat → Nat
  | 0 => 0
  | Nat.succ n => elapsedAfter intervalMs latency n + intervalMs + latency n

/-- A status string on which the polling loop stops. -/
def terminalStatus (r : RunStatusResult) : Prop :=
  (r.status = "success" ∨ r.status = "completed") ∨ (r.status = "failed" ∨ r.status = "error")

instance (r : RunStatusResult) : Decidable (terminalStatus r) := by
  unfold terminalStatus; infer_instance

/-- The result object the `runAsync` operation pushes for each polling
outcome (lines 363-369, 382-390, 395-401): `status` is `"timeout"`,
`"completed"` or `"failed"`, with the descriptive timeout error message. -/
structure RunResultJson where
  runId : String
  status : String
  output : Option JVal
  error : Option String
  cost : Option Int
  duration : Option Int
  statusUrl : Option String
  message : Option String
  glyphSlug : String
  modelId : String
deriving Repr

/-- Assembly of the pushed result from a polling outcome. -/
def applyOutcome (rid slug model : String) (pollingTimeoutSec : Nat) :
    PollOutcome → RunResultJson
  | PollOutcome.completed r =>
      RunResultJson.mk rid "completed" r.output none r.cost r.duration none none slug model
  | PollOutcome.failed r =>
      RunResultJson.mk rid "failed" none r.error none none none none slug model
  | PollOutcome.timedOut =>
      RunResultJson.mk rid "timeout" none
        (some ("Execution did not complete within " ++ toString pollingTimeoutSec ++ " seconds"))
        none none none none slug model

/-- The `runAsync` branch of `XPayRun.execute` (lines 306-406) after the
submission request: if the response is not accepted or carries a falsy
`runId`, throw (`Except.error`) the response's error message (or the
default) without any status query; otherwise either return the immediate
`processing` result (`waitForCompletion` off) or run the polling loop with
timeout `pollingTimeoutSec * 1000` ms and the polling-interval constant
`intervalMs` (`DEFAULTS.POLLING_INTERVAL_MS` in the source). The second
component counts status queries issued; `none` models a still-running
loop. -/
def runAsyncExec (resp : AsyncSubmitResponse) (slug model : String)
    (waitForCompletion : Bool) (pollingTimeoutSec : Nat) (intervalMs : Nat)
    (statuses : Nat → RunStatusResult) (latency : Nat → Nat) (fuel : Nat) :
    Option (Except String RunResultJson × Nat) :=
  if resp.accepted = false ∨ jsFalsy resp.runId then
    some (Except.error (jsOrStr resp.error "Failed to start async execution"), 0)
  else
    if waitForCompletion = false then
      some (Except.ok (RunResultJson.mk (resp.runId.getD "") "processing" none none none none
        resp.statusUrl (some (jsOrStr resp.message "Execution started")) slug model), 0)
    else
      match awaitCompletion statuses intervalMs (pollingTimeoutSec * 1000) latency fuel with
      | some (o, k) =>
          some (Except.ok (applyOutcome (resp.runId.getD "") slug model pollingTimeoutSec o), k)
      | none => none

/-- A fixed stand-in HMAC function for closed instances. -/
def hmacConst : String → String → String := fun _ _ => ""

/-- A keyed stand-in HMAC function for closed instances. -/
def hmacConcat : String → String → String := fun key msg => key ++ "#" ++ msg

/-- A `processing` status-query response. -/
def procStatus : RunStatusResult := RunStatusResult.mk "processing" none none none none

/-- A `completed` status-query response with output and metrics. -/
def compStatus : RunStatusResult :=
  RunStatusResult.mk "completed" (some (JVal.str "out")) none (some 42) (some 1234)

/-- The remote status sequence `[processing, processing, completed, ...]`. -/
def seqPPC : Nat → RunStatusResult := fun k => if k < 2 then procStatus else compStatus

/-- Zero status-query latency. -/
def zeroLatency : Nat → Nat := fun _ => 0

/-- An accepted async submission response with run id `run_1`. -/
def respOk : AsyncSubmitResponse :=
  AsyncSubmitResponse.mk true (some "run_1") none (some "https://status.example") none

/-- Removing the first occurrence of a nonempty `pat` from `pat ++ rest`
yields `rest`. -/
theorem removeFirst_append (pat rest : List Char) (hne : pat ≠ []) :
    removeFirst pat (pat ++ rest) = rest := by
  cases pat with
  | nil => exact absurd rfl hne
  | cons c cs =>
    rw [List.cons_append]
    have hp : List.isPrefixOf (c :: cs) (c :: (cs ++ rest)) = true := by
      rw [ List.isPrefixOf_iff_prefix, ← List.cons_append]
      exact List.prefix_append _ _
    simp only [removeFirst, hp, if_true]
    simp

/-- JS `signature.replace('sha256=', '')` recovers the MAC from a
`sha256=`-prefixed signature header. -/
theorem replaceFirst_sha256_recover (mac : String) :
    replaceFirst ("sha256=" ++ mac) "sha256=" = mac := by
  unfold replaceFirst
  have h : ("sha256=" ++ mac).toList = "sha256=".toList ++ mac.toList := by
    simp [String.toList]
  rw [h, removeFirst_append _ _ (by decide)]
  cases mac; rfl

/-- A `sha256=`-prefixed header is never the empty string. -/
theorem sha256_prefix_ne_empty (s : String) : "sha256=" ++ s ≠ "" := by
  intro h
  have hl : ("sha256=" ++ s).length = 0 := by rw [h]; rfl
  rw [String.length_append, show ("sha256=").length = 7 from rfl] at hl
  omega

/-- If the first `m` status queries (counting from query `k`) are all
non-terminal and stay within the timeout, and elapsed wall-clock time
first exceeds the timeout at iteration `k + m`, then the polling loop
started at iteration `k` stops there with `timedOut` after exactly
`k + m` status queries. -/
theorem pollLoop_reaches_timeout (statuses : Nat → RunStatusResult)
    (intervalMs timeoutMs : Nat) (latency : Nat → Nat) :
    ∀ (m fuel k : Nat), m < fuel →
    (∀ j, j < m → ¬ terminalStatus (statuses (k + j))
        ∧ elapsedAfter intervalMs latency (k + j) ≤ timeoutMs) →
    timeoutMs < elapsedAfter intervalMs latency (k + m) →
    pollLoop statuses intervalMs timeoutMs latency fuel
        (elapsedAfter intervalMs latency k) k
      = some (PollOutcome.timedOut, k + m) := by
  intro m
  induction m with
  | zero =>
    intro fuel k hfuel _ hcross
    match fuel, hfuel with
    | Nat.succ f, _ =>
      rw [Nat.add_zero] at hcross
      simp only [pollLoop, hcross, if_true, Nat.add_zero]
  | succ m ih =>
    intro fuel k hfuel hpre hcross
    match fuel, hfuel with
    | Nat.succ f, hfuel =>
      have h0 := hpre 0 (Nat.succ_pos m)
      rw [Nat.add_zero] at h0
      have hnt : ¬ terminalStatus (statuses k) := h0.1
      have hnc : ¬ timeoutMs < elapsedAfter intervalMs latency k := Nat.not_lt.mpr h0.2
      simp only [pollLoop, if_neg hnc]
      rw [if_neg (fun h => hnt (Or.inl h)), if_neg (fun h => hnt (Or.inr h))]
      have harg : elapsedAfter intervalMs latency k + intervalMs + latency k
          = elapsedAfter intervalMs latency (k + 1) := rfl
      rw [harg]
      have hidx : k + (m + 1) = (k + 1) + m := by omega
      rw [hidx]
      refine ih f (k + 1) (by omega) ?_ ?_
      · intro j hj
        have := hpre (j + 1) (by omega)
        rwa [show k + (j + 1) = (k + 1) + j by omega] at this
      · rwa [show k + (m + 1) = (k + 1) + m by omega] at hcross

/-- C1: the claim says the live-mode HMAC signing input is
`timestamp + "." + rawPayloadBytes` (the exact bytes the sender
transmitted). The code instead builds
`timestamp + "." + JSON.stringify(body)` from the **parsed** body
(line 455). Failing input: the sender transmits the raw bytes
`\x7b"a": 1\x7d` (with a space); the code hashes the re-serialized
`\x7b"a":1\x7d`, so the signing input differs from the one the claim
mandates. -/
theorem signing_input_uses_reserialized_body :
    parseJson "\x7b\"a\": 1\x7d" = some (JVal.obj [("a", JVal.num 1)])
    ∧ webhookSigningInput "100" [("a", JVal.num 1)] = "100." ++ "\x7b\"a\":1\x7d"
    ∧ "100." ++ "\x7b\"a\":1\x7d" ≠ "100." ++ "\x7b\"a\": 1\x7d" := by
  refine ⟨by rfl, by rfl, by decide⟩

/-- C8: when the remote registration call fails (any thrown error `e`),
`create` still returns `true` (activation is not aborted) and writes the
sentinel session `local-test` with the fixed secret `test-secret` into
durable state, on which `exists` subsequently reports true. -/
theorem registration_failure_writes_fallback (st : StaticData) (e : String) :
    createHook st (Except.error e)
      = (true, StaticData.mk (some "local-test") st.checkoutUrl (some "test-secret"))
    ∧ checkExists (createHook st (Except.error e)).2 = true := by
  exact ⟨rfl, rfl⟩

/-- C9: after any `create` (remote success or fallback), `exists` reports
true on the resulting durable state, so the activation protocol that
consults `exists` before `create` issues no second registration request
and leaves the state unchanged. -/
theorem create_then_exists_no_second_registration (st : StaticData)
    (remote remote2 : Except String CreateResponse) :
    checkExists (createHook st remote).2 = true
    ∧ activationStep (createHook st remote).2 remote2
        = ((createHook st remote).2, 0) := by
  cases remote with
  | ok r =>
    refine ⟨rfl, ?_⟩
    simp [activationStep, createHook, checkExists]
  | error e =>
    refine ⟨rfl, ?_⟩
    simp [activationStep, createHook, checkExists]

/-- C2 counterexample: the claim says `delete` clears the stored session
identifier, checkout URL and shared secret for **every** stored session
state. For a local-fallback sentinel session the code returns `true`
early (line 321-323) without touching durable state: the identifier,
URL and secret all survive the call. -/
theorem delete_local_fallback_leaves_state :
    (deleteHook (StaticData.mk (some "local-test") (some "https://u.example")
        (some "test-secret")) true).2.1
      = StaticData.mk (some "local-test") (some "https://u.example") (some "test-secret")
    ∧ (deleteHook (StaticData.mk (some "local-test") (some "https://u.example")
        (some "test-secret")) true).2.1.checkoutId ≠ none := by
  decide

/-- C2 as amended: `delete` always returns success; when the stored
identifier is absent, empty, or the `local-test` sentinel it skips the
remote call and returns success leaving durable state unchanged (so
repeat calls behave identically); for any other stored identifier it
clears identifier, URL and secret and returns success regardless of the
remote outcome `remoteOk` (exactly one remote teardown request). -/
theorem delete_always_succeeds_clears_remote_only (url sec : Option String)
    (remoteOk : Bool) :
    deleteHook (StaticData.mk none url sec) remoteOk
      = (true, StaticData.mk none url sec, 0)
    ∧ deleteHook (StaticData.mk (some "") url sec) remoteOk
      = (true, StaticData.mk (some "") url sec, 0)
    ∧ deleteHook (StaticData.mk (some "local-test") url sec) remoteOk
      = (true, StaticData.mk (some "local-test") url sec, 0)
    ∧ (∀ cid, cid ≠ "" → cid ≠ "local-test" →
        deleteHook (StaticData.mk (some cid) url sec) remoteOk
          = (true, StaticData.mk none none none, 1)) := by
  refine ⟨rfl, rfl, rfl, ?_⟩
  intro cid h1 h2
  simp [deleteHook, h1, h2]

/-- C2 witness: a stored remote session is cleared and the call succeeds. -/
theorem delete_behavior_witness :
    deleteHook (StaticData.mk (some "chk_9") (some "https://u.example") (some "s3cr3t")) true
      = (true, StaticData.mk none none none, 1) :=
  (delete_always_succeeds_clears_remote_only (some "https://u.example") (some "s3cr3t")
    true).2.2.2 "chk_9" (by decide) (by decide)

/-- C10 counterexample: the claim says any POST whose body **contains**
a `_getInfo` key gets the informational response and never emits
workflow data. The code tests JS truthiness of `body._getInfo`
(line 421), so a body containing `"_getInfo": false` skips the info
path; in test mode it is accepted and emitted to the workflow. -/
theorem falsy_getInfo_key_not_info :
    jlookup [("_getInfo", JVal.bool false)] "_getInfo" = some (JVal.bool false)
    ∧ webhookPost (StaticData.mk (some "chk_1") (some "https://pay.example") (some "s3cr3t"))
        true hmacConst 0 none none [("_getInfo", JVal.bool false)]
      = WebhookOutcome.accepted
    ∧ (webhookPost (StaticData.mk (some "chk_1") (some "https://pay.example") (some "s3cr3t"))
        true hmacConst 0 none none [("_getInfo", JVal.bool false)]).emitsData = true := by
  exact ⟨rfl, rfl, rfl⟩

/-- C10 as amended: for every POST whose parsed body is empty or holds a
**truthy** `_getInfo` value, the handler — in test and live mode alike,
before any signature or timestamp check — returns the HTTP 200
informational response exposing the stored checkout id and form URL,
and emits no workflow data. -/
theorem empty_or_truthy_getInfo_yields_info (st : StaticData) (testMode : Bool)
    (hmac : String → String → String) (now : Int) (sigHeader tsHeader : Option String)
    (body : List (String × JVal))
    (h : body.isEmpty = true ∨ truthyOpt (jlookup body "_getInfo") = true) :
    webhookPost st testMode hmac now sigHeader tsHeader body
      = WebhookOutcome.info st.checkoutId st.checkoutUrl
    ∧ (webhookPost st testMode hmac now sigHeader tsHeader body).emitsData = false
    ∧ (webhookPost st testMode hmac now sigHeader tsHeader body).statusOf = 200 := by
  unfold webhookPost
  rw [if_pos h]
  exact ⟨rfl, rfl, rfl⟩

/-- C10 witness: an empty body in live mode gets the informational
response and emits nothing. -/
theorem info_path_witness :
    webhookPost (StaticData.mk (some "chk_1") (some "https://pay.example") (some "s3cr3t"))
      false hmacConst 1000 none none []
      = WebhookOutcome.info (some "chk_1") (some "https://pay.example") :=
  (empty_or_truthy_getInfo_yields_info
    (StaticData.mk (some "chk_1") (some "https://pay.example") (some "s3cr3t"))
    false hmacConst 1000 none none [] (Or.inl rfl)).1

/-- C3 counterexample: the claim says that in test mode **every** POSTed
payload is accepted and emitted to the workflow. An empty parsed body is
a POSTed payload, yet it takes the informational path (which precedes
the bypass) and emits no workflow data. -/
theorem test_mode_empty_body_not_emitted :
    webhookPost (StaticData.mk (some "chk_1") (some "https://pay.example") (some "s3cr3t"))
      true hmacConst 1000 none none []
      = WebhookOutcome.info (some "chk_1") (some "https://pay.example")
    ∧ (webhookPost (StaticData.mk (some "chk_1") (some "https://pay.example") (some "s3cr3t"))
        true hmacConst 1000 none none []).emitsData = false := by
  exact ⟨rfl, rfl⟩

/-- C3 as amended: whenever test mode is on or the stored secret is the
`test-secret` fallback sentinel, verification is bypassed for every
POSTed payload that reaches it (parsed body non-empty and without a
truthy `_getInfo` value): the payload is accepted with HTTP 200 and
emitted to the workflow regardless of the signature and timestamp
headers, malformed or absent. -/
theorem bypass_accepts_all_nonempty_payloads (st : StaticData) (testMode : Bool)
    (hmac : String → String → String) (now : Int) (sigHeader tsHeader : Option String)
    (body : List (String × JVal))
    (hbypass : testMode = true ∨ st.webhookSecret = some "test-secret")
    (hne : body.isEmpty = false)
    (hinfo : truthyOpt (jlookup body "_getInfo") = false) :
    webhookPost st testMode hmac now sigHeader tsHeader body = WebhookOutcome.accepted
    ∧ (webhookPost st testMode hmac now sigHeader tsHeader body).emitsData = true
    ∧ (webhookPost st testMode hmac now sigHeader tsHeader body).statusOf = 200 := by
  have h1 : ¬(body.isEmpty = true ∨ truthyOpt (jlookup body "_getInfo") = true) := by
    simp [hne, hinfo]
  unfold webhookPost
  rw [if_neg h1, if_pos hbypass]
  exact ⟨rfl, rfl, rfl⟩

/-- C3 witness: in test mode, a payload with no signature headers at all
is accepted and emitted. -/
theorem bypass_accepts_witness :
    webhookPost (StaticData.mk (some "chk_1") (some "https://pay.example") (some "s3cr3t"))
      true hmacConst 1000 none none [("payment", JVal.obj [("amount", JVal.num 1)])]
      = WebhookOutcome.accepted :=
  (bypass_accepts_all_nonempty_payloads
    (StaticData.mk (some "chk_1") (some "https://pay.example") (some "s3cr3t"))
    true hmacConst 1000 none none [("payment", JVal.obj [("amount", JVal.num 1)])]
    (Or.inl rfl) rfl rfl).1

/-- C7: in live mode with a stored non-fallback secret, a payload whose
signature verifies correctly but whose (numeric) timestamp header
deviates from the verifier's current time by more than 300 seconds in
either direction is rejected with 401 `Timestamp too old` and never
emitted to the workflow. -/
theorem stale_timestamp_rejected (st : StaticData) (secret : String)
    (hmac : String → String → String) (now t : Int) (ts : String)
    (body : List (String × JVal))
    (hsec : st.webhookSecret = some secret) (hnotfb : secret ≠ "test-secret")
    (hne : body.isEmpty = false)
    (hinfo : truthyOpt (jlookup body "_getInfo") = false)
    (hts : ts ≠ "")
    (ht : jsParseInt ts = some t)
    (hstale : 300 < (now - t).natAbs) :
    webhookPost st false hmac now
      (some ("sha256=" ++ hmac secret (webhookSigningInput ts body))) (some ts) body
      = WebhookOutcome.unauthorized "Timestamp too old"
    ∧ (webhookPost st false hmac now
        (some ("sha256=" ++ hmac secret (webhookSigningInput ts body))) (some ts) body).emitsData
      = false
    ∧ (webhookPost st false hmac now
        (some ("sha256=" ++ hmac secret (webhookSigningInput ts body))) (some ts) body).statusOf
      = 401 := by
  have hmain : webhookPost st false hmac now
      (some ("sha256=" ++ hmac secret (webhookSigningInput ts body))) (some ts) body
      = WebhookOutcome.unauthorized "Timestamp too old" := by
    have h1 : ¬(body.isEmpty = true ∨ truthyOpt (jlookup body "_getInfo") = true) := by
      simp [hne, hinfo]
    have h2 : ¬((false : Bool) = true ∨ st.webhookSecret = some "test-secret") := by
      simp [hsec, hnotfb]
    have h3 : ¬(jsFalsy (some ("sha256=" ++ hmac secret (webhookSigningInput ts body)))
        ∨ jsFalsy (some ts)) := by
      simp [jsFalsy, hts, sha256_prefix_ne_empty]
    unfold webhookPost
    rw [if_neg h1, if_neg h2, if_neg h3]
    simp only [Option.getD_some, hsec]
    rw [replaceFirst_sha256_recover, if_pos rfl]
    simp only [ht]
    rw [if_pos hstale]
  refine ⟨hmain, ?_, ?_⟩
  · rw [hmain]
    rfl
  · rw [hmain]
    rfl

/-- C7 witness: a correctly-signed payload whose timestamp is 1000
seconds in the past is rejected as stale. -/
theorem stale_timestamp_witness :
    webhookPost (StaticData.mk (some "chk_1") (some "https://pay.example") (some "s3cr3t"))
      false hmacConcat 2000
      (some ("sha256=" ++ hmacConcat "s3cr3t"
        (webhookSigningInput "1000" [("payment", JVal.obj [("amount", JVal.num 1)])])))
      (some "1000") [("payment", JVal.obj [("amount", JVal.num 1)])]
      = WebhookOutcome.unauthorized "Timestamp too old" :=
  (stale_timestamp_rejected
    (StaticData.mk (some "chk_1") (some "https://pay.example") (some "s3cr3t"))
    "s3cr3t" hmacConcat 2000 1000 "1000" [("payment", JVal.obj [("amount", JVal.num 1)])]
    rfl (by decide) rfl rfl (by decide) (by rfl) (by decide)).1

/-- C4: if the async submission response is not accepted or carries a
missing/empty run id, the `runAsync` operation fails synchronously with
the response's error message (or the default), before any status query
(second component 0): no `processing` result is produced and no retry
occurs. -/
theorem submission_rejected_fails_synchronously (resp : AsyncSubmitResponse)
    (slug model : String) (wait : Bool) (sec intervalMs : Nat)
    (statuses : Nat → RunStatusResult) (latency : Nat → Nat) (fuel : Nat)
    (h : resp.accepted = false ∨ resp.runId = none ∨ resp.runId = some "") :
    runAsyncExec resp slug model wait sec intervalMs statuses latency fuel
      = some (Except.error (jsOrStr resp.error "Failed to start async execution"), 0) := by
  have hc : resp.accepted = false ∨ jsFalsy resp.runId := by
    rcases h with h | h | h
    · exact Or.inl h
    · exact Or.inr (Or.inl h)
    · exact Or.inr (Or.inr h)
  unfold runAsyncExec
  rw [if_pos hc]

/-- A rejected async submission response. -/
def respRejected : AsyncSubmitResponse :=
  AsyncSubmitResponse.mk false none (some "quota exceeded") none none

/-- C4 witness: a rejected submission yields the synchronous error with
zero status queries. -/
theorem submission_rejected_witness :
    runAsyncExec respRejected "glyph-a" "gpt-4o-mini" true 180 2000
      (fun _ => procStatus) zeroLatency 5
      = some (Except.error "quota exceeded", 0) :=
  submission_rejected_fails_synchronously respRejected "glyph-a" "gpt-4o-mini" true 180 2000
    (fun _ => procStatus) zeroLatency 5 (Or.inl rfl)

/-- C5: with the remote status sequence
`[processing, processing, completed]` and poll interval 0, the
await-completion loop of `runAsync` returns the `completed` result after
exactly 3 status queries; with a status that never leaves `processing`
and a timeout of one poll interval (2000 ms = `POLLING_INTERVAL_MS`),
it returns the `timeout` result. -/
theorem awaitCompletion_three_polls_then_timeout :
    runAsyncExec respOk "glyph-a" "gpt-4o-mini" true 180 0 seqPPC zeroLatency 10
      = some (Except.ok (RunResultJson.mk "run_1" "completed" (some (JVal.str "out")) none
          (some 42) (some 1234) none none "glyph-a" "gpt-4o-mini"), 3)
    ∧ runAsyncExec respOk "glyph-a" "gpt-4o-mini" true 2 POLLING_INTERVAL_MS
        (fun _ => procStatus) zeroLatency 10
      = some (Except.ok (RunResultJson.mk "run_1" "timeout" none
          (some "Execution did not complete within 2 seconds") none none none none
          "glyph-a" "gpt-4o-mini"), 2) := by
  exact ⟨rfl, rfl⟩

/-- C6: the polling timeout is enforced by wall-clock time elapsed since
submission (`elapsedAfter` counts every sleep and every status-query
latency, starting from 0 at the moment the submission response is
received, before the first sleep and first query): for every interval,
timeout and latency profile, if the first `k` iterations stay within the
timeout and observe no terminal status, and elapsed time exceeds the
timeout at the start of iteration `k`, the loop stops there — no further
status query — and `runAsync` returns the `timeout` result with its
descriptive error message. -/
theorem timeout_enforced_from_submission (resp : AsyncSubmitResponse)
    (rid slug model : String) (sec intervalMs : Nat)
    (statuses : Nat → RunStatusResult) (latency : Nat → Nat) (fuel k : Nat)
    (hacc : resp.accepted = true) (hrid : resp.runId = some rid) (hridne : rid ≠ "")
    (hpre : ∀ j, j < k → ¬ terminalStatus (statuses j)
        ∧ elapsedAfter intervalMs latency j ≤ sec * 1000)
    (hcross : sec * 1000 < elapsedAfter intervalMs latency k)
    (hfuel : k < fuel) :
    runAsyncExec resp slug model true sec intervalMs statuses latency fuel
      = some (Except.ok (RunResultJson.mk rid "timeout" none
          (some ("Execution did not complete within " ++ toString sec ++ " seconds"))
          none none none none slug model), k) := by
  have hrej : ¬(resp.accepted = false ∨ jsFalsy resp.runId) := by
    simp [hacc, jsFalsy, hrid, hridne]
  have hloop : pollLoop statuses intervalMs (sec * 1000) latency fuel 0 0
      = some (PollOutcome.timedOut, k) := by
    have h := pollLoop_reaches_timeout statuses intervalMs (sec * 1000) latency k fuel 0
      hfuel (fun j hj => by simpa using hpre j hj) (by simpa using hcross)
    simpa [elapsedAfter] using h
  unfold runAsyncExec
  rw [if_neg hrej, if_neg (by simp : ¬((true : Bool) = false))]
  unfold awaitCompletion
  rw [hloop]
  simp [applyOutcome, hrid]

/-- C6 witness: a single slow first status query (5000 ms latency with a
3-second timeout) already trips the timeout at the second iteration:
the loop stops after exactly one status query because time is measured
from submission, not from the first poll. -/
theorem timeout_enforced_witness :
    runAsyncExec (AsyncSubmitResponse.mk true (some "run_1") none none none)
      "glyph-a" "gpt-4o-mini" true 3 1000 (fun _ => procStatus) (fun _ => 5000) 5
      = some (Except.ok (RunResultJson.mk "run_1" "timeout" none
          (some "Execution did not complete within 3 seconds") none none none none
          "glyph-a" "gpt-4o-mini"), 1) :=
  timeout_enforced_from_submission (AsyncSubmitResponse.mk true (some "run_1") none none none)
    "run_1" "glyph-a" "gpt-4o-mini" 3 1000 (fun _ => procStatus) (fun _ => 5000) 5 1
    rfl rfl (by decide)
    (fun j hj => by
      have hj0 : j = 0 := by omega
      subst hj0
      exact ⟨by decide, by decide⟩)
    (by decide) (by decide)
